import Mathlib

/-!
Verification of the whatomate bulk-messaging campaign pipeline.

This file is a shallow embedding of the Go sources:
  internal/queue/queue.go   (Redis-stream job log: enqueue, consume, reclaim)
  internal/worker/worker.go (campaign worker: send loop, counters, completion)
  internal/handlers (campaigns handler file: start/pause/cancel/retry/import/delete,
                     incrementCampaignStat, recalculateCampaignStats)

UUIDs and timestamps are modelled as Nat, statuses as the literal strings the
Go code compares against, database rows as Lean structures, and each handler
as a pure function from the campaign's rows (plus the outcome of the fallible
queue call) to the updated rows and the HTTP-level result.  JSON
marshal/unmarshal of the queue payload is abstracted as an encode/decode
function pair, universally quantified in the theorems that need round-tripping.
-/

/-- Job payload enqueued per campaign (queue.CampaignJob): the campaign id and
the enqueue timestamp. -/
structure CampaignJob where
  campaignID : Nat
  enqueuedAt : Nat
deriving Repr, DecidableEq

/-- A Redis stream entry as the consumer sees it: an id plus the field map
passed to XADD (msg.Values), modelled as an association list. -/
structure StreamEntry where
  id : String
  values : List (String × String)
deriving Repr, DecidableEq

/-- First-match lookup in a field map, the Go map access msg.Values[k]. -/
def lookupField : List (String × String) → String → Option String
  | [], _ => none
  | (k, v) :: rest, key => if k = key then some v else lookupField rest key

/-- RedisQueue.EnqueueCampaign (queue.go): marshal the CampaignJob and XADD an
entry with fields type = string(JobTypeCampaign) and payload = the JSON text.
JobTypeCampaign is the string "campaign". -/
def enqueueCampaignEntry (enc : CampaignJob → String) (entryID : String)
    (campaignID : Nat) (now : Nat) : StreamEntry :=
  { id := entryID
    values := [("type", "campaign"), ("payload", enc { campaignID := campaignID, enqueuedAt := now })] }

/-- RedisConsumer.processMessage (queue.go): read the type field, reject a
missing type, reject any type other than JobTypeCampaign ("campaign") with a
returned error, read and unmarshal the payload, and hand the job to the
handler.  Every failure is a returned Except.error, never an exception. -/
def processMessage (dec : String → Option CampaignJob)
    (handler : CampaignJob → Except String Unit) (msg : StreamEntry) :
    Except String Unit :=
  match lookupField msg.values "type" with
  | none => .error "invalid message: missing type"
  | some jobType =>
    if jobType ≠ "campaign" then .error ("unknown job type: " ++ jobType)
    else
      match lookupField msg.values "payload" with
      | none => .error "invalid message: missing payload"
      | some payload =>
        match dec payload with
        | none => .error "failed to unmarshal job"
        | some job => handler job

/-- One iteration of the body of RedisConsumer.Consume for a delivered
message: process it and XACK exactly when processing succeeded; on error the
loop logs and continues without acknowledging. -/
def processAndAck (dec : String → Option CampaignJob)
    (handler : CampaignJob → Except String Unit) (msg : StreamEntry) : Bool :=
  match processMessage dec handler msg with
  | .ok _ => true
  | .error _ => false

/-- The read phase of RedisConsumer.Consume over one batch of delivered
entries: each entry is processed in order; the entries acknowledged are
returned.  Mirrors the inner for-loop with its continue-on-error. -/
def consumeReadPhase (dec : String → Option CampaignJob)
    (handler : CampaignJob → Except String Unit) :
    List StreamEntry → List StreamEntry
  | [] => []
  | msg :: rest =>
    if processAndAck dec handler msg then
      msg :: consumeReadPhase dec handler rest
    else
      consumeReadPhase dec handler rest

/-- RedisConsumer.claimPendingMessages: for each stale pending entry, XCLAIM
it (which can itself fail, modelled by the claimOk oracle, in which case the
loop continues), process it, and XACK only on success. -/
def claimPhase (dec : String → Option CampaignJob)
    (handler : CampaignJob → Except String Unit) (claimOk : String → Bool) :
    List StreamEntry → List StreamEntry
  | [] => []
  | msg :: rest =>
    if claimOk msg.id then
      if processAndAck dec handler msg then
        msg :: claimPhase dec handler claimOk rest
      else
        claimPhase dec handler claimOk rest
    else
      claimPhase dec handler claimOk rest

/-- One row of bulk_message_recipients (models.BulkMessageRecipient): phone,
name, template parameter map, delivery status with error text, provider
message id and sent_at timestamp. -/
structure Recipient where
  id : Nat
  phoneNumber : String
  recipientName : String
  templateParams : List (String × String)
  status : String
  errorMessage : String
  whatsAppMessageID : String
  sentAt : Option Nat
deriving Repr, DecidableEq

/-- One row of bulk_message_campaigns (models.BulkMessageCampaign): status
string, aggregate counters and lifecycle timestamps. -/
structure Campaign where
  id : Nat
  orgID : Nat
  status : String
  totalRecipients : Nat
  sentCount : Nat
  deliveredCount : Nat
  readCount : Nat
  failedCount : Nat
  startedAt : Option Nat
  completedAt : Option Nat
deriving Repr, DecidableEq

/-- One row of messages as far as the campaign pipeline reads it: the
campaign id stored in metadata (metadata->>campaign_id), and the delivery
status with error text. -/
structure MessageRow where
  campaignMeta : Option Nat
  status : String
  errorMessage : String
deriving Repr, DecidableEq

/-- The database rows of one campaign: its record, its recipients (rows with
this campaign_id), and the message rows carrying its id in metadata. -/
structure World where
  campaign : Campaign
  ledger : List Recipient
  messages : List MessageRow
deriving Repr, DecidableEq

/-- queue.RecipientJob: the per-recipient job the campaign handlers build and
pass to Queue.EnqueueRecipients.  The handlers leave EnqueuedAt at its zero
value. -/
structure RecipientJob where
  campaignID : Nat
  recipientID : Nat
  organizationID : Nat
  phoneNumber : String
  recipientName : String
  templateParams : List (String × String)
  enqueuedAt : Nat
deriving Repr, DecidableEq

/-- The HTTP-level outcome of a handler: SendEnvelope, or SendErrorEnvelope
with a 4xx client code or a 5xx server code. -/
inductive ApiResult where
  | success
  | clientError (code : Nat)
  | serverError (code : Nat)
deriving Repr, DecidableEq

/-- Result of one campaign API action: the updated rows, the HTTP outcome,
the jobs handed to the queue (empty when nothing was enqueued), and whether
the campaign row was deleted. -/
structure ActionOut where
  world : World
  result : ApiResult
  enqueuedJobs : List RecipientJob
  deleted : Bool
deriving Repr, DecidableEq

/-- Build the RecipientJob for one recipient exactly as StartCampaign and
RetryFailed do. -/
def toRecipientJob (c : Campaign) (r : Recipient) : RecipientJob :=
  { campaignID := c.id
    recipientID := r.id
    organizationID := c.orgID
    phoneNumber := r.phoneNumber
    recipientName := r.recipientName
    templateParams := r.templateParams
    enqueuedAt := 0 }

/-- App.StartCampaign: reject unless the status is draft, scheduled or
paused; load the pending recipients and reject when there are none; set
status processing with started_at; enqueue one job per pending recipient;
when the enqueue fails, revert status to draft and answer 500. -/
def startCampaign (w : World) (now : Nat) (enqueueOk : Bool) : ActionOut :=
  let c := w.campaign
  if c.status ≠ "draft" ∧ c.status ≠ "scheduled" ∧ c.status ≠ "paused" then
    { world := w, result := .clientError 400, enqueuedJobs := [], deleted := false }
  else
    let pending := w.ledger.filter (fun r => r.status = "pending")
    if pending.isEmpty then
      { world := w, result := .clientError 400, enqueuedJobs := [], deleted := false }
    else
      let c1 := { c with status := "processing", startedAt := some now }
      let jobs := pending.map (toRecipientJob c)
      if enqueueOk then
        { world := { w with campaign := c1 }, result := .success,
          enqueuedJobs := jobs, deleted := false }
      else
        { world := { w with campaign := { c1 with status := "draft" } },
          result := .serverError 500, enqueuedJobs := [], deleted := false }

/-- App.PauseCampaign: reject unless the status is processing or queued;
otherwise set status paused.  Recipient rows are not touched. -/
def pauseCampaign (w : World) : ActionOut :=
  let c := w.campaign
  if c.status ≠ "processing" ∧ c.status ≠ "queued" then
    { world := w, result := .clientError 400, enqueuedJobs := [], deleted := false }
  else
    { world := { w with campaign := { c with status := "paused" } },
      result := .success, enqueuedJobs := [], deleted := false }

/-- App.CancelCampaign: reject when the status is completed or cancelled;
otherwise set status cancelled. -/
def cancelCampaign (w : World) : ActionOut :=
  let c := w.campaign
  if c.status = "completed" ∨ c.status = "cancelled" then
    { world := w, result := .clientError 400, enqueuedJobs := [], deleted := false }
  else
    { world := { w with campaign := { c with status := "cancelled" } },
      result := .success, enqueuedJobs := [], deleted := false }

/-- The per-row effect of RetryFailed's recipient reset: rows whose status is
failed become pending with error_message cleared; every other row is left
exactly as it is. -/
def resetFailedRecipient (r : Recipient) : Recipient :=
  if r.status = "failed" then { r with status := "pending", errorMessage := "" } else r

/-- The per-row effect of RetryFailed's messages-table reset, scoped to rows
whose metadata carries this campaign id. -/
def resetFailedMessage (cid : Nat) (m : MessageRow) : MessageRow :=
  if m.campaignMeta = some cid ∧ m.status = "failed" then
    { m with status := "pending", errorMessage := "" }
  else m

/-- App.recalculateCampaignStats: recompute the four counters from the
messages rows whose metadata carries this campaign id, grouped by status:
sent counts sent/delivered/read, delivered counts delivered/read, read counts
read, failed counts failed. -/
def recalcFromMessages (cid : Nat) (msgs : List MessageRow) (c : Campaign) : Campaign :=
  let mine := msgs.filter (fun m => m.campaignMeta = some cid)
  { c with
    sentCount := mine.countP (fun m => m.status = "sent" ∨ m.status = "delivered" ∨ m.status = "read")
    deliveredCount := mine.countP (fun m => m.status = "delivered" ∨ m.status = "read")
    readCount := mine.countP (fun m => m.status = "read")
    failedCount := mine.countP (fun m => m.status = "failed") }

/-- App.RetryFailed: reject unless the status is completed, paused or failed;
load the failed recipients and reject when there are none; reset the failed
recipients and the campaign's failed message rows to pending with cleared
error text; recalculate the counters from the messages table; set status
processing; enqueue one job per previously-failed recipient.  When the
enqueue fails the handler answers 500 and the status is left as processing
(there is no revert on this path). -/
def retryFailedAction (w : World) (enqueueOk : Bool) : ActionOut :=
  let c := w.campaign
  if c.status ≠ "completed" ∧ c.status ≠ "paused" ∧ c.status ≠ "failed" then
    { world := w, result := .clientError 400, enqueuedJobs := [], deleted := false }
  else
    let failedRecipients := w.ledger.filter (fun r => r.status = "failed")
    if failedRecipients.isEmpty then
      { world := w, result := .clientError 400, enqueuedJobs := [], deleted := false }
    else
      let ledger1 := w.ledger.map resetFailedRecipient
      let messages1 := w.messages.map (resetFailedMessage c.id)
      let c1 := recalcFromMessages c.id messages1 c
      let c2 := { c1 with status := "processing" }
      let jobs := failedRecipients.map (toRecipientJob c)
      if enqueueOk then
        { world := { campaign := c2, ledger := ledger1, messages := messages1 },
          result := .success, enqueuedJobs := jobs, deleted := false }
      else
        { world := { campaign := c2, ledger := ledger1, messages := messages1 },
          result := .serverError 500, enqueuedJobs := [], deleted := false }

/-- App.ImportRecipients: reject unless the campaign is draft; otherwise
append the new rows with status pending and refresh total_recipients from a
count of the campaign's recipient rows. -/
def importRecipientsAction (w : World) (newRecs : List Recipient) : ActionOut :=
  let c := w.campaign
  if c.status ≠ "draft" then
    { world := w, result := .clientError 400, enqueuedJobs := [], deleted := false }
  else
    let created := newRecs.map (fun r => { r with status := "pending" })
    let ledger1 := w.ledger ++ created
    let c1 := { c with totalRecipients := ledger1.length }
    { world := { w with campaign := c1, ledger := ledger1 },
      result := .success, enqueuedJobs := [], deleted := false }

/-- App.DeleteCampaign: reject while the status is processing or queued;
otherwise delete the recipient rows and then the campaign row. -/
def deleteCampaignAction (w : World) : ActionOut :=
  let c := w.campaign
  if c.status = "processing" ∨ c.status = "queued" then
    { world := w, result := .clientError 400, enqueuedJobs := [], deleted := false }
  else
    { world := { w with ledger := [] }, result := .success,
      enqueuedJobs := [], deleted := true }

/-- The campaign API actions, each carrying the request data it needs and
the outcome of the queue call where one is made. -/
inductive CampaignAction where
  | start (now : Nat) (enqueueOk : Bool)
  | pause
  | cancel
  | retryFailed (enqueueOk : Bool)
  | importRecipients (newRecs : List Recipient)
  | delete
deriving Repr, DecidableEq

/-- The transition table of the spec: which statuses admit which action.
start from draft/scheduled/paused; pause from processing/queued; cancel from
anything but completed/cancelled; retry-failed from completed/paused/failed;
importing recipients only in draft; delete anywhere but processing/queued. -/
def actionAllowed (s : String) : CampaignAction → Bool
  | .start _ _ => s = "draft" ∨ s = "scheduled" ∨ s = "paused"
  | .pause => s = "processing" ∨ s = "queued"
  | .cancel => ¬ (s = "completed" ∨ s = "cancelled")
  | .retryFailed _ => s = "completed" ∨ s = "paused" ∨ s = "failed"
  | .importRecipients _ => s = "draft"
  | .delete => ¬ (s = "processing" ∨ s = "queued")

/-- Dispatch one API action to its handler. -/
def applyAction (w : World) : CampaignAction → ActionOut
  | .start now enqueueOk => startCampaign w now enqueueOk
  | .pause => pauseCampaign w
  | .cancel => cancelCampaign w
  | .retryFailed enqueueOk => retryFailedAction w enqueueOk
  | .importRecipients newRecs => importRecipientsAction w newRecs
  | .delete => deleteCampaignAction w

/-- A single write the pipeline issues against a campaign counter column:
either an atomic increment expression evaluated by the store
(gorm.Expr of column + 1), or an absolute value computed in application
memory and written with a plain update. -/
inductive CounterUpdate where
  | incr (column : String)
  | setVal (column : String) (value : Nat)
deriving Repr, DecidableEq

/-- Apply one counter write to the campaign row. -/
def applyCounterUpdate (c : Campaign) : CounterUpdate → Campaign
  | .incr col =>
    if col = "sent_count" then { c with sentCount := c.sentCount + 1 }
    else if col = "delivered_count" then { c with deliveredCount := c.deliveredCount + 1 }
    else if col = "read_count" then { c with readCount := c.readCount + 1 }
    else if col = "failed_count" then { c with failedCount := c.failedCount + 1 }
    else c
  | .setVal col v =>
    if col = "sent_count" then { c with sentCount := v }
    else if col = "delivered_count" then { c with deliveredCount := v }
    else if col = "read_count" then { c with readCount := v }
    else if col = "failed_count" then { c with failedCount := v }
    else c

/-- App.incrementCampaignStat: a webhook status callback increments exactly
one counter column with a storage-layer increment expression; the statuses
delivered, read and failed map to their columns, anything else issues no
write (sent is counted by the worker). -/
def incrementCampaignStat (status : String) : Option CounterUpdate :=
  if status = "delivered" then some (.incr "delivered_count")
  else if status = "read" then some (.incr "read_count")
  else if status = "failed" then some (.incr "failed_count")
  else none

/-- Outcome of one gateway call in Worker.sendTemplateMessage: a provider
message id, or an error string. -/
inductive SendResult where
  | ok (messageID : String)
  | err (msg : String)
deriving Repr, DecidableEq

/-- Result of the worker's per-recipient loop: the final records of the
pending snapshot (position by position), the in-memory counters, the status
that stopped the loop when paused/cancelled was observed, and the counter
writes the loop issued in order. -/
structure RunOut where
  processed : List Recipient
  sentCount : Nat
  failedCount : Nat
  stopped : Option String
  trace : List CounterUpdate
deriving Repr, DecidableEq

/-- The body of Worker.processCampaign's for-loop over the pending snapshot:
before each send re-read the campaign status (the observe oracle gives the
value the re-read returns before the i-th send) and stop when it is paused or
cancelled; otherwise send, update the recipient row to sent (with provider id
and sent_at) or failed (with error text), bump the in-memory counters, and
write both counters back as absolute values. -/
def runLoop (send : Recipient → SendResult) (observe : Nat → String) (now : Nat) :
    List Recipient → Nat → Nat → Nat → RunOut
  | [], s, f, _ => { processed := [], sentCount := s, failedCount := f,
                     stopped := none, trace := [] }
  | r :: rest, s, f, i =>
    if observe i = "paused" ∨ observe i = "cancelled" then
      { processed := r :: rest, sentCount := s, failedCount := f,
        stopped := some (observe i), trace := [] }
    else
      match send r with
      | .err m =>
        let out := runLoop send observe now rest s (f + 1) (i + 1)
        { processed := { r with status := "failed", errorMessage := m } :: out.processed
          sentCount := out.sentCount
          failedCount := out.failedCount
          stopped := out.stopped
          trace := .setVal "sent_count" s :: .setVal "failed_count" (f + 1) :: out.trace }
      | .ok mid =>
        let out := runLoop send observe now rest (s + 1) f (i + 1)
        { processed := { r with status := "sent", whatsAppMessageID := mid, sentAt := some now } :: out.processed
          sentCount := out.sentCount
          failedCount := out.failedCount
          stopped := out.stopped
          trace := .setVal "sent_count" (s + 1) :: .setVal "failed_count" f :: out.trace }

/-- Write the processed snapshot back over the ledger: the worker's loop
updates exactly the rows it selected with status pending, in order; every
other row is untouched. -/
def mergeProcessed : List Recipient → List Recipient → List Recipient
  | [], _ => []
  | r :: rest, ps =>
    if r.status = "pending" then
      match ps with
      | [] => r :: mergeProcessed rest []
      | p :: ps2 => p :: mergeProcessed rest ps2
    else
      r :: mergeProcessed rest ps

/-- Worker.processCampaign: skip campaigns that are not queued/processing;
mark the campaign failed when the WhatsApp account lookup fails; otherwise
set status processing, load the pending snapshot, run the send loop starting
from the stored counters, and afterwards either leave the externally-written
paused/cancelled status in place (early stop) or mark the campaign completed
with completed_at and the final counters. -/
def processCampaign (send : Recipient → SendResult) (observe : Nat → String)
    (now : Nat) (accountOk : Bool) (c : Campaign) (ledger : List Recipient) :
    Campaign × List Recipient :=
  if c.status ≠ "queued" ∧ c.status ≠ "processing" then
    (c, ledger)
  else if ¬ accountOk then
    ({ c with status := "failed" }, ledger)
  else
    let pending := ledger.filter (fun r => r.status = "pending")
    let out := runLoop send observe now pending c.sentCount c.failedCount 0
    let ledger1 := mergeProcessed ledger out.processed
    match out.stopped with
    | some st =>
      let c1 := { c with status := st, sentCount := out.sentCount, failedCount := out.failedCount }
      (c1, ledger1)
    | none =>
      let c1 := { c with status := "completed", completedAt := some now, sentCount := out.sentCount, failedCount := out.failedCount }
      (c1, ledger1)

/-- One body parameter of the template components Worker.sendTemplateMessage
builds: a map with type text and the value drawn from the recipient's
parameter map. -/
structure BodyParam where
  ptype : String
  text : String
deriving Repr, DecidableEq

/-- One template component: its type and its parameters. -/
structure Component where
  ctype : String
  parameters : List BodyParam
deriving Repr, DecidableEq

/-- The for-loop of Worker.sendTemplateMessage: for i from first upward,
count keys, look up the decimal key and append a text parameter when the map
holds it. -/
def bodyParamsFrom (params : List (String × String)) : Nat → Nat → List BodyParam
  | _, 0 => []
  | i, n + 1 =>
    match lookupField params (toString i) with
    | some v => { ptype := "text", text := v } :: bodyParamsFrom params (i + 1) n
    | none => bodyParamsFrom params (i + 1) n

/-- Worker.sendTemplateMessage's component construction: with a non-empty
parameter map, collect the values at keys 1 through 10 in ascending order;
attach a single body component exactly when at least one was found. -/
def buildComponents (params : List (String × String)) : List Component :=
  if params.isEmpty then []
  else
    let bodyParams := bodyParamsFrom params 1 10
    if bodyParams.isEmpty then []
    else [{ ctype := "body", parameters := bodyParams }]

/-- Count the campaign's recipient rows carrying a given status. -/
def countStatus (st : String) (l : List Recipient) : Nat :=
  l.countP (fun r => r.status = st)

/-- C4: for every (campaign state, API action) pair outside the transition
table — start only from draft/scheduled/paused, pause only from
processing/queued, cancel from any state except completed/cancelled,
retry-failed only from completed/paused/failed, import only in draft, delete
rejected in processing/queued — the handler leaves the campaign's rows
unchanged, enqueues nothing, deletes nothing, and answers a 400 client
error. -/
theorem campaign_state_machine_closure (w : World) (act : CampaignAction)
    (h : actionAllowed w.campaign.status act = false) :
    applyAction w act =
      { world := w, result := .clientError 400, enqueuedJobs := [], deleted := false } := by
  cases act with
  | start now enqueueOk =>
    simp only [actionAllowed, decide_eq_false_iff_not, not_or] at h
    obtain ⟨h1, h2, h3⟩ := h
    simp [applyAction, startCampaign, h1, h2, h3]
  | pause =>
    simp only [actionAllowed, decide_eq_false_iff_not, not_or] at h
    obtain ⟨h1, h2⟩ := h
    simp [applyAction, pauseCampaign, h1, h2]
  | cancel =>
    simp only [actionAllowed, decide_eq_false_iff_not, not_not] at h
    simp [applyAction, cancelCampaign, h]
  | retryFailed enqueueOk =>
    simp only [actionAllowed, decide_eq_false_iff_not, not_or] at h
    obtain ⟨h1, h2, h3⟩ := h
    simp [applyAction, retryFailedAction, h1, h2, h3]
  | importRecipients newRecs =>
    simp only [actionAllowed, decide_eq_false_iff_not] at h
    simp [applyAction, importRecipientsAction, h]
  | delete =>
    simp only [actionAllowed, decide_eq_false_iff_not, not_not] at h
    simp [applyAction, deleteCampaignAction, h]

/-- C4 witness: pausing a draft campaign is outside the table and is
rejected with a 400 while the rows stay untouched. -/
theorem campaign_state_machine_closure_witness :
    applyAction
      { campaign := { id := 7, orgID := 3, status := "draft", totalRecipients := 0,
                      sentCount := 0, deliveredCount := 0, readCount := 0,
                      failedCount := 0, startedAt := none, completedAt := none },
        ledger := [], messages := [] } .pause =
      { world := { campaign := { id := 7, orgID := 3, status := "draft", totalRecipients := 0,
                                 sentCount := 0, deliveredCount := 0, readCount := 0,
                                 failedCount := 0, startedAt := none, completedAt := none },
                   ledger := [], messages := [] },
        result := .clientError 400, enqueuedJobs := [], deleted := false } :=
  campaign_state_machine_closure _ .pause (by decide)

/-- Under its guards, RetryFailed maps the recipient ledger row-for-row
through resetFailedRecipient, whichever way the enqueue call goes. -/
theorem retryFailed_ledger_eq (w : World) (enqueueOk : Bool)
    (hstatus : w.campaign.status = "completed" ∨ w.campaign.status = "paused" ∨
      w.campaign.status = "failed")
    (hfailed : (w.ledger.filter (fun r => r.status = "failed")).isEmpty = false) :
    (retryFailedAction w enqueueOk).world.ledger = w.ledger.map resetFailedRecipient := by
  have hguard : ¬(w.campaign.status ≠ "completed" ∧ w.campaign.status ≠ "paused" ∧
      w.campaign.status ≠ "failed") := by tauto
  cases enqueueOk <;> simp [retryFailedAction, hguard, hfailed]

/-- C6: retry-failed resets exactly the recipients whose status is failed to
pending with a cleared error_message; every other recipient row (in
particular the sent ones) is returned untouched, and no row's provider
message id or sent_at is changed. -/
theorem retry_resets_only_failures (w : World) (enqueueOk : Bool)
    (hstatus : w.campaign.status = "completed" ∨ w.campaign.status = "paused" ∨
      w.campaign.status = "failed")
    (hfailed : (w.ledger.filter (fun r => r.status = "failed")).isEmpty = false)
    (i : Nat) (r : Recipient) (hr : w.ledger[i]? = some r) :
    (r.status = "failed" →
      (retryFailedAction w enqueueOk).world.ledger[i]? =
        some { r with status := "pending", errorMessage := "" }) ∧
    (r.status ≠ "failed" → (retryFailedAction w enqueueOk).world.ledger[i]? = some r) ∧
    (∀ r2, (retryFailedAction w enqueueOk).world.ledger[i]? = some r2 →
      r2.whatsAppMessageID = r.whatsAppMessageID ∧ r2.sentAt = r.sentAt ∧ r2.id = r.id) := by
  rw [retryFailed_ledger_eq w enqueueOk hstatus hfailed] at *
  refine ⟨?_, ?_, ?_⟩
  · intro hf
    rw [List.getElem?_map, hr]
    simp [resetFailedRecipient, hf]
  · intro hnf
    rw [List.getElem?_map, hr]
    simp [resetFailedRecipient, hnf]
  · intro r2 h2
    rw [List.getElem?_map, hr] at h2
    have h3 : resetFailedRecipient r = r2 := by simpa using h2
    subst h3
    by_cases hf : r.status = "failed" <;> simp [resetFailedRecipient, hf]

/-- C6 witness: on a campaign with one sent and one failed recipient, retry
turns row 1 into a pending row with cleared error while row 0 stays the sent
row with its provider id. -/
theorem retry_resets_only_failures_witness :
    (retryFailedAction
        { campaign := { id := 7, orgID := 3, status := "completed", totalRecipients := 2,
                        sentCount := 1, deliveredCount := 0, readCount := 0,
                        failedCount := 1, startedAt := some 1, completedAt := some 9 },
          ledger := [{ id := 1, phoneNumber := "p1", recipientName := "n1",
                       templateParams := [], status := "sent", errorMessage := "",
                       whatsAppMessageID := "wamid-1", sentAt := some 5 },
                     { id := 2, phoneNumber := "p2", recipientName := "n2",
                       templateParams := [], status := "failed", errorMessage := "boom",
                       whatsAppMessageID := "", sentAt := none }],
          messages := [] } true).world.ledger[1]? =
      some { id := 2, phoneNumber := "p2", recipientName := "n2",
             templateParams := [], status := "pending", errorMessage := "",
             whatsAppMessageID := "", sentAt := none } := by
  have h := retry_resets_only_failures
    { campaign := { id := 7, orgID := 3, status := "completed", totalRecipients := 2,
                    sentCount := 1, deliveredCount := 0, readCount := 0,
                    failedCount := 1, startedAt := some 1, completedAt := some 9 },
      ledger := [{ id := 1, phoneNumber := "p1", recipientName := "n1",
                   templateParams := [], status := "sent", errorMessage := "",
                   whatsAppMessageID := "wamid-1", sentAt := some 5 },
                 { id := 2, phoneNumber := "p2", recipientName := "n2",
                   templateParams := [], status := "failed", errorMessage := "boom",
                   whatsAppMessageID := "", sentAt := none }],
      messages := [] } true (by decide) (by decide) 1
    { id := 2, phoneNumber := "p2", recipientName := "n2",
      templateParams := [], status := "failed", errorMessage := "boom",
      whatsAppMessageID := "", sentAt := none } rfl
  exact h.1 (by decide)

/-- C1 counterexample: the persisted envelope's type field is "campaign",
not "recipient" — and the consumer rejects an envelope whose type field is
"recipient" as an unknown job type instead of dispatching it. -/
theorem envelope_type_not_recipient_cex :
    lookupField (enqueueCampaignEntry (fun _ => "payload-bytes") "1-0" 5 7).values "type" =
      some "campaign" ∧
    ("campaign" : String) ≠ "recipient" ∧
    processMessage (fun _ => some { campaignID := 5, enqueuedAt := 7 }) (fun _ => .ok ())
        { id := "1-0", values := [("type", "recipient"), ("payload", "payload-bytes")] } =
      .error "unknown job type: recipient" := by
  refine ⟨rfl, by decide, rfl⟩

/-- C1 amended: every job-log entry is persisted with envelope
type = "campaign" and payload = the json-encoded CampaignJob; the consumer's
processMessage switches on the envelope's type field, decodes the payload
into the CampaignJob struct and dispatches it to the campaign handler, and
rejects an entry with a missing type or any unknown type with a returned
error (it is a total function into Except — never a panic). -/
theorem envelope_campaign_roundtrip_dispatch (enc : CampaignJob → String)
    (dec : String → Option CampaignJob) (entryID : String) (cid t : Nat)
    (handler : CampaignJob → Except String Unit)
    (hdec : dec (enc { campaignID := cid, enqueuedAt := t }) =
      some { campaignID := cid, enqueuedAt := t }) :
    lookupField (enqueueCampaignEntry enc entryID cid t).values "type" = some "campaign" ∧
    lookupField (enqueueCampaignEntry enc entryID cid t).values "payload" =
      some (enc { campaignID := cid, enqueuedAt := t }) ∧
    processMessage dec handler (enqueueCampaignEntry enc entryID cid t) =
      handler { campaignID := cid, enqueuedAt := t } ∧
    (∀ msg ty, lookupField msg.values "type" = some ty → ty ≠ "campaign" →
      processMessage dec handler msg = .error ("unknown job type: " ++ ty)) ∧
    (∀ msg, lookupField msg.values "type" = none →
      processMessage dec handler msg = .error "invalid message: missing type") := by
  refine ⟨rfl, ?_, ?_, ?_, ?_⟩
  · simp [enqueueCampaignEntry, lookupField]
  · simp [processMessage, enqueueCampaignEntry, lookupField, hdec]
  · intro msg ty hty hne
    simp [processMessage, hty, hne]
  · intro msg hty
    simp [processMessage, hty]

/-- C1 witness: with a codec that round-trips the job 5/7, the enqueued
entry is dispatched to the handler. -/
theorem envelope_campaign_roundtrip_dispatch_witness :
    processMessage (fun _ => some { campaignID := 5, enqueuedAt := 7 })
        (fun j => if j.campaignID = 5 then .ok () else .error "wrong job")
        (enqueueCampaignEntry (fun _ => "payload-bytes") "1-0" 5 7) = .ok () := by
  have h := envelope_campaign_roundtrip_dispatch (fun _ => "payload-bytes")
    (fun _ => some { campaignID := 5, enqueuedAt := 7 }) "1-0" 5 7
    (fun j => if j.campaignID = 5 then .ok () else .error "wrong job") rfl
  rw [h.2.2.1]
  simp

/-- Acknowledgement happens exactly when processing returned success. -/
theorem processAndAck_eq_true_iff (dec : String → Option CampaignJob)
    (handler : CampaignJob → Except String Unit) (m : StreamEntry) :
    processAndAck dec handler m = true ↔ processMessage dec handler m = .ok () := by
  unfold processAndAck
  cases h : processMessage dec handler m with
  | ok u => cases u; simp
  | error e => simp

/-- The read phase acknowledges exactly the entries whose processing
succeeded: it is a filter of the batch. -/
theorem consumeReadPhase_eq_filter (dec : String → Option CampaignJob)
    (handler : CampaignJob → Except String Unit) (msgs : List StreamEntry) :
    consumeReadPhase dec handler msgs = msgs.filter (processAndAck dec handler) := by
  induction msgs with
  | nil => rfl
  | cons a rest ih =>
    by_cases ha : processAndAck dec handler a
    · rw [consumeReadPhase, if_pos ha, ih, List.filter_cons_of_pos ha]
    · rw [consumeReadPhase, if_neg ha, ih,
        List.filter_cons_of_neg (by simpa using ha)]

/-- The reclaim phase acknowledges exactly the entries it could claim and
whose processing succeeded. -/
theorem claimPhase_eq_filter (dec : String → Option CampaignJob)
    (handler : CampaignJob → Except String Unit) (claimOk : String → Bool)
    (msgs : List StreamEntry) :
    claimPhase dec handler claimOk msgs =
      msgs.filter (fun m => claimOk m.id && processAndAck dec handler m) := by
  induction msgs with
  | nil => rfl
  | cons a rest ih =>
    by_cases hc : claimOk a.id
    · by_cases ha : processAndAck dec handler a
      · rw [claimPhase, if_pos hc, if_pos ha, ih,
          List.filter_cons_of_pos (by simp [hc, ha])]
      · rw [claimPhase, if_pos hc, if_neg ha, ih,
          List.filter_cons_of_neg (by simp [hc, ha])]
    · rw [claimPhase, if_neg hc, ih, List.filter_cons_of_neg (by simp [hc])]

/-- C9: in both the reclaim phase and the normal read phase an entry is
acknowledged only when its processing (and so the handler) returned success;
an entry whose processing errors is never acknowledged, and processing an
erroring entry leaves the handling of the remaining entries unchanged (the
loop continues rather than crashing). -/
theorem ack_only_after_success (dec : String → Option CampaignJob)
    (handler : CampaignJob → Except String Unit) (claimOk : String → Bool)
    (msgs pendingMsgs : List StreamEntry) :
    (∀ m ∈ consumeReadPhase dec handler msgs, processMessage dec handler m = .ok ()) ∧
    (∀ m e, processMessage dec handler m = .error e →
      m ∉ consumeReadPhase dec handler msgs) ∧
    (∀ m ∈ claimPhase dec handler claimOk pendingMsgs,
      claimOk m.id = true ∧ processMessage dec handler m = .ok ()) ∧
    (∀ m e, processMessage dec handler m = .error e →
      m ∉ claimPhase dec handler claimOk pendingMsgs) ∧
    (∀ m e rest, processMessage dec handler m = .error e →
      consumeReadPhase dec handler (m :: rest) = consumeReadPhase dec handler rest) := by
  refine ⟨?_, ?_, ?_, ?_, ?_⟩
  · intro m hm
    rw [consumeReadPhase_eq_filter] at hm
    exact (processAndAck_eq_true_iff dec handler m).mp (List.mem_filter.mp hm).2
  · intro m e he hm
    rw [consumeReadPhase_eq_filter] at hm
    have := (processAndAck_eq_true_iff dec handler m).mp (List.mem_filter.mp hm).2
    rw [he] at this
    exact Except.noConfusion this
  · intro m hm
    rw [claimPhase_eq_filter] at hm
    have h2 := (List.mem_filter.mp hm).2
    rw [Bool.and_eq_true] at h2
    exact ⟨h2.1, (processAndAck_eq_true_iff dec handler m).mp h2.2⟩
  · intro m e he hm
    rw [claimPhase_eq_filter] at hm
    have h2 := (List.mem_filter.mp hm).2
    rw [Bool.and_eq_true] at h2
    have := (processAndAck_eq_true_iff dec handler m).mp h2.2
    rw [he] at this
    exact Except.noConfusion this
  · intro m e rest he
    rw [consumeReadPhase, processAndAck, he]
    simp

/-- C9 witness: an entry whose payload fails to decode is not acknowledged. -/
theorem ack_only_after_success_witness :
    ({ id := "bad", values := [("type", "campaign"), ("payload", "garbage")] } : StreamEntry) ∉
      consumeReadPhase (fun s => if s = "good-payload" then some { campaignID := 1, enqueuedAt := 2 } else none)
        (fun _ => .ok ())
        [{ id := "bad", values := [("type", "campaign"), ("payload", "garbage")] },
         { id := "ok", values := [("type", "campaign"), ("payload", "good-payload")] }] := by
  have h := ack_only_after_success
    (fun s => if s = "good-payload" then some { campaignID := 1, enqueuedAt := 2 } else none)
    (fun _ => .ok ()) (fun _ => true)
    [{ id := "bad", values := [("type", "campaign"), ("payload", "garbage")] },
     { id := "ok", values := [("type", "campaign"), ("payload", "good-payload")] }] []
  exact h.2.1 _ "failed to unmarshal job" rfl

/-- C2 counterexample: when RetryFailed's enqueue fails on a completed
campaign with one failed recipient, the handler answers 500 but leaves the
campaign in processing — the status change is not reverted, and in the
processing state the retry action can no longer be re-attempted. -/
theorem retry_enqueue_failure_no_revert_cex :
    (retryFailedAction
        { campaign := { id := 1, orgID := 2, status := "completed", totalRecipients := 1,
                        sentCount := 0, deliveredCount := 0, readCount := 0,
                        failedCount := 1, startedAt := some 1, completedAt := some 2 },
          ledger := [{ id := 9, phoneNumber := "p", recipientName := "n",
                       templateParams := [], status := "failed", errorMessage := "e",
                       whatsAppMessageID := "", sentAt := none }],
          messages := [] } false).result = .serverError 500 ∧
    (retryFailedAction
        { campaign := { id := 1, orgID := 2, status := "completed", totalRecipients := 1,
                        sentCount := 0, deliveredCount := 0, readCount := 0,
                        failedCount := 1, startedAt := some 1, completedAt := some 2 },
          ledger := [{ id := 9, phoneNumber := "p", recipientName := "n",
                       templateParams := [], status := "failed", errorMessage := "e",
                       whatsAppMessageID := "", sentAt := none }],
          messages := [] } false).world.campaign.status = "processing" ∧
    ("processing" : String) ≠ "completed" ∧
    actionAllowed "processing" (.retryFailed true) = false := by
  decide

/-- C2 amended: when StartCampaign's enqueue fails after the status was set
to processing, the status is reverted to draft with the ledger untouched and
a re-attempted start succeeds once the queue is healthy; RetryFailed on the
other hand answers 500 on enqueue failure without reverting, leaving the
campaign in processing. -/
theorem enqueue_failure_rollback (w w2 : World) (now now2 : Nat)
    (hs : w.campaign.status = "draft" ∨ w.campaign.status = "scheduled" ∨
      w.campaign.status = "paused")
    (hp : (w.ledger.filter (fun r => r.status = "pending")).isEmpty = false)
    (hs2 : w2.campaign.status = "completed" ∨ w2.campaign.status = "paused" ∨
      w2.campaign.status = "failed")
    (hf2 : (w2.ledger.filter (fun r => r.status = "failed")).isEmpty = false) :
    ((startCampaign w now false).result = .serverError 500 ∧
     (startCampaign w now false).world.campaign.status = "draft" ∧
     (startCampaign w now false).world.ledger = w.ledger ∧
     (startCampaign (startCampaign w now false).world now2 true).result = .success ∧
     (startCampaign (startCampaign w now false).world now2 true).world.campaign.status =
       "processing") ∧
    ((retryFailedAction w2 false).result = .serverError 500 ∧
     (retryFailedAction w2 false).world.campaign.status = "processing") := by
  have hguard : ¬(w.campaign.status ≠ "draft" ∧ w.campaign.status ≠ "scheduled" ∧
      w.campaign.status ≠ "paused") := by tauto
  have hguard2 : ¬(w2.campaign.status ≠ "completed" ∧ w2.campaign.status ≠ "paused" ∧
      w2.campaign.status ≠ "failed") := by tauto
  refine ⟨⟨?_, ?_, ?_, ?_, ?_⟩, ?_, ?_⟩ <;>
    simp [startCampaign, retryFailedAction, recalcFromMessages, hguard, hguard2, hp, hf2]

/-- C2 witness: a draft campaign with one pending recipient is reverted to
draft when the enqueue fails, and the re-attempted start succeeds. -/
theorem enqueue_failure_rollback_witness :
    (startCampaign
        { campaign := { id := 1, orgID := 2, status := "draft", totalRecipients := 1,
                        sentCount := 0, deliveredCount := 0, readCount := 0,
                        failedCount := 0, startedAt := none, completedAt := none },
          ledger := [{ id := 9, phoneNumber := "p", recipientName := "n",
                       templateParams := [], status := "pending", errorMessage := "",
                       whatsAppMessageID := "", sentAt := none }],
          messages := [] } 5 false).world.campaign.status = "draft" ∧
    (startCampaign
        (startCampaign
          { campaign := { id := 1, orgID := 2, status := "draft", totalRecipients := 1,
                          sentCount := 0, deliveredCount := 0, readCount := 0,
                          failedCount := 0, startedAt := none, completedAt := none },
            ledger := [{ id := 9, phoneNumber := "p", recipientName := "n",
                         templateParams := [], status := "pending", errorMessage := "",
                         whatsAppMessageID := "", sentAt := none }],
            messages := [] } 5 false).world 6 true).result = .success := by
  have h := enqueue_failure_rollback
    { campaign := { id := 1, orgID := 2, status := "draft", totalRecipients := 1,
                    sentCount := 0, deliveredCount := 0, readCount := 0,
                    failedCount := 0, startedAt := none, completedAt := none },
      ledger := [{ id := 9, phoneNumber := "p", recipientName := "n",
                   templateParams := [], status := "pending", errorMessage := "",
                   whatsAppMessageID := "", sentAt := none }],
      messages := [] }
    { campaign := { id := 1, orgID := 2, status := "completed", totalRecipients := 1,
                    sentCount := 0, deliveredCount := 0, readCount := 0,
                    failedCount := 1, startedAt := some 1, completedAt := some 2 },
      ledger := [{ id := 9, phoneNumber := "p", recipientName := "n",
                   templateParams := [], status := "failed", errorMessage := "e",
                   whatsAppMessageID := "", sentAt := none }],
      messages := [] } 5 6 (by decide) (by decide) (by decide) (by decide)
  exact ⟨h.1.2.1, h.1.2.2.2.1⟩

/-- Every counter write the worker's send loop issues is an absolute value
computed in application memory (a setVal), never a storage-layer increment
expression. -/
theorem runLoop_trace_setVal (send : Recipient → SendResult) (observe : Nat → String)
    (now : Nat) :
    ∀ (l : List Recipient) (s f i : Nat),
      ∀ u ∈ (runLoop send observe now l s f i).trace, ∃ col v, u = .setVal col v := by
  intro l
  induction l with
  | nil => intro s f i u hu; simp [runLoop] at hu
  | cons r rest ih =>
    intro s f i u hu
    rw [runLoop] at hu
    by_cases hstop : observe i = "paused" ∨ observe i = "cancelled"
    · rw [if_pos hstop] at hu
      simp at hu
    · rw [if_neg hstop] at hu
      cases hsr : send r with
      | err m =>
        rw [hsr] at hu
        simp only [List.mem_cons] at hu
        rcases hu with hu | hu | hu
        · exact ⟨"sent_count", s, hu⟩
        · exact ⟨"failed_count", f + 1, hu⟩
        · exact ih s (f + 1) (i + 1) u hu
      | ok mid =>
        rw [hsr] at hu
        simp only [List.mem_cons] at hu
        rcases hu with hu | hu | hu
        · exact ⟨"sent_count", s + 1, hu⟩
        · exact ⟨"failed_count", f, hu⟩
        · exact ih (s + 1) f (i + 1) u hu

/-- C5 counterexample: the worker's sent_count/failed_count writes are
read-modify-write values, and interleaving two single-recipient worker runs
that both read sent_count = 0 loses an increment: two recipients end sent but
the stored counter ends at 1. -/
theorem worker_counter_lost_update_cex :
    (runLoop (fun _ => .ok "wamid") (fun _ => "processing") 10
        [{ id := 1, phoneNumber := "pa", recipientName := "na", templateParams := [],
           status := "pending", errorMessage := "", whatsAppMessageID := "", sentAt := none }]
        0 0 0).trace =
      [.setVal "sent_count" 1, .setVal "failed_count" 0] ∧
    countStatus "sent"
      ((runLoop (fun _ => .ok "wamid") (fun _ => "processing") 10
          [{ id := 1, phoneNumber := "pa", recipientName := "na", templateParams := [],
             status := "pending", errorMessage := "", whatsAppMessageID := "", sentAt := none }]
          0 0 0).processed ++
        (runLoop (fun _ => .ok "wamid") (fun _ => "processing") 10
          [{ id := 2, phoneNumber := "pb", recipientName := "nb", templateParams := [],
             status := "pending", errorMessage := "", whatsAppMessageID := "", sentAt := none }]
          0 0 0).processed) = 2 ∧
    (((runLoop (fun _ => .ok "wamid") (fun _ => "processing") 10
          [{ id := 1, phoneNumber := "pa", recipientName := "na", templateParams := [],
             status := "pending", errorMessage := "", whatsAppMessageID := "", sentAt := none }]
          0 0 0).trace ++
       (runLoop (fun _ => .ok "wamid") (fun _ => "processing") 10
          [{ id := 2, phoneNumber := "pb", recipientName := "nb", templateParams := [],
             status := "pending", errorMessage := "", whatsAppMessageID := "", sentAt := none }]
          0 0 0).trace).foldl applyCounterUpdate
        { id := 1, orgID := 2, status := "processing", totalRecipients := 2,
          sentCount := 0, deliveredCount := 0, readCount := 0, failedCount := 0,
          startedAt := some 1, completedAt := none }).sentCount = 1 ∧
    (1 : Nat) ≠ 2 := by
  decide

/-- C5 amended: the callback-driven counter updates (incrementCampaignStat
for delivered/read/failed) are atomic storage-layer increment expressions,
under which sequential application accumulates without loss; but the
worker's per-send sent_count/failed_count writes are absolute values computed
by read-modify-write in application memory (setVal, never incr), so two
concurrent worker runs over different recipients of the same campaign can
lose an increment. -/
theorem counter_updates_characterized :
    (incrementCampaignStat "delivered" = some (.incr "delivered_count") ∧
     incrementCampaignStat "read" = some (.incr "read_count") ∧
     incrementCampaignStat "failed" = some (.incr "failed_count")) ∧
    (∀ st, st ≠ "delivered" → st ≠ "read" → st ≠ "failed" →
      incrementCampaignStat st = none) ∧
    (∀ c : Campaign,
      (applyCounterUpdate (applyCounterUpdate c (.incr "delivered_count"))
        (.incr "delivered_count")).deliveredCount = c.deliveredCount + 2) ∧
    (∀ (send : Recipient → SendResult) (observe : Nat → String) (now : Nat)
      (l : List Recipient) (s f i : Nat),
      ∀ u ∈ (runLoop send observe now l s f i).trace, ∃ col v, u = .setVal col v) := by
  refine ⟨⟨rfl, rfl, rfl⟩, ?_, ?_, ?_⟩
  · intro st h1 h2 h3
    simp [incrementCampaignStat, h1, h2, h3]
  · intro c
    simp [applyCounterUpdate]
  · intro send observe now l s f i u hu
    exact runLoop_trace_setVal send observe now l s f i u hu

/-- C5 amended witness: the status "sent" drives no callback counter write. -/
theorem counter_updates_characterized_witness :
    incrementCampaignStat "sent" = none :=
  counter_updates_characterized.2.1 "sent" (by decide) (by decide) (by decide)

/-- A list of pending rows contains no row of a different status. -/
theorem countStatus_of_all_pending (st : String) (hne : st ≠ "pending")
    (l : List Recipient) (hall : ∀ r ∈ l, r.status = "pending") :
    countStatus st l = 0 := by
  rw [countStatus, List.countP_eq_zero]
  intro r hr
  simp only [decide_eq_true_eq]
  rw [hall r hr]
  exact fun h => hne h.symm

/-- Dropping the pending rows does not change the count of any other
status. -/
theorem countStatus_filter_not_pending (st : String) (hne : st ≠ "pending")
    (l : List Recipient) :
    countStatus st (l.filter (fun r => ¬ r.status = "pending")) = countStatus st l := by
  simp only [countStatus]
  induction l with
  | nil => rfl
  | cons r rest ih =>
    by_cases hp : r.status = "pending"
    · rw [List.filter_cons_of_neg (by simp [hp]), ih, List.countP_cons]
      have hne2 : ("pending" : String) ≠ st := fun h => hne h.symm
      simp [hp, hne2]
    · rw [List.filter_cons_of_pos (by simp [hp]), List.countP_cons, List.countP_cons, ih]

/-- The send loop's in-memory counters equal their starting values plus the
number of rows it marked sent, respectively failed, and it returns one final
record per input row. -/
theorem runLoop_counts (send : Recipient → SendResult) (observe : Nat → String)
    (now : Nat) :
    ∀ (l : List Recipient) (s f i : Nat), (∀ r ∈ l, r.status = "pending") →
      (runLoop send observe now l s f i).sentCount =
        s + countStatus "sent" (runLoop send observe now l s f i).processed ∧
      (runLoop send observe now l s f i).failedCount =
        f + countStatus "failed" (runLoop send observe now l s f i).processed ∧
      (runLoop send observe now l s f i).processed.length = l.length := by
  intro l
  induction l with
  | nil =>
    intro s f i hall
    simp [runLoop, countStatus]
  | cons r rest ih =>
    intro s f i hall
    have hallrest : ∀ r2 ∈ rest, r2.status = "pending" :=
      fun r2 h2 => hall r2 (List.mem_cons_of_mem r h2)
    rw [runLoop]
    by_cases hstop : observe i = "paused" ∨ observe i = "cancelled"
    · rw [if_pos hstop]
      have hsent : countStatus "sent" (r :: rest) = 0 :=
        countStatus_of_all_pending "sent" (by decide) _ hall
      have hfail : countStatus "failed" (r :: rest) = 0 :=
        countStatus_of_all_pending "failed" (by decide) _ hall
      simp [hsent, hfail]
    · rw [if_neg hstop]
      cases hsr : send r with
      | err m =>
        obtain ⟨ih1, ih2, ih3⟩ := ih s (f + 1) (i + 1) hallrest
        refine ⟨?_, ?_, ?_⟩ <;>
          simp [countStatus, List.countP_cons, ih3] at ih1 ih2 ⊢ <;>
          simp [ih1, ih2] <;>
          omega
      | ok mid =>
        obtain ⟨ih1, ih2, ih3⟩ := ih (s + 1) f (i + 1) hallrest
        refine ⟨?_, ?_, ?_⟩ <;>
          simp [countStatus, List.countP_cons, ih3] at ih1 ih2 ⊢ <;>
          simp [ih1, ih2] <;>
          omega

/-- Writing the processed snapshot back over the ledger splits every status
count into the untouched non-pending rows plus the processed rows. -/
theorem mergeProcessed_counts (st : String) :
    ∀ (ledger ps : List Recipient),
      ps.length = (ledger.filter (fun r => r.status = "pending")).length →
      countStatus st (mergeProcessed ledger ps) =
        countStatus st (ledger.filter (fun r => ¬ r.status = "pending")) +
          countStatus st ps := by
  intro ledger
  induction ledger with
  | nil =>
    intro ps h
    simp only [List.filter_nil, List.length_nil] at h
    have hps : ps = [] := List.length_eq_zero.mp h
    subst hps
    simp [mergeProcessed, countStatus]
  | cons r rest ih =>
    intro ps h
    by_cases hp : r.status = "pending"
    · rw [List.filter_cons_of_pos (by simp [hp])] at h
      cases ps with
      | nil => simp at h
      | cons p ps2 =>
        simp only [List.length_cons] at h
        have hlen : ps2.length = (rest.filter (fun r => r.status = "pending")).length := by
          omega
        have hih := ih ps2 hlen
        simp only [mergeProcessed, if_pos hp]
        rw [List.filter_cons_of_neg (by simp [hp])]
        simp only [countStatus, List.countP_cons] at hih ⊢
        omega
    · rw [List.filter_cons_of_neg (by simp [hp])] at h
      have hih := ih ps h
      simp only [mergeProcessed, if_neg hp]
      rw [List.filter_cons_of_pos (by simp [hp])]
      simp only [countStatus, List.countP_cons] at hih ⊢
      omega

/-- C3 counterexample: a completed campaign with 3 sent and 2 failed
recipients and no campaign rows in the messages table: right after
retry-failed's recompute (the quiescent point before any new job runs) the
stored sent_count is 0 while 3 of the campaign's recipients have status
sent. -/
theorem counter_consistency_cex :
    (retryFailedAction
        { campaign := { id := 1, orgID := 2, status := "completed", totalRecipients := 5,
                        sentCount := 3, deliveredCount := 0, readCount := 0,
                        failedCount := 2, startedAt := some 1, completedAt := some 9 },
          ledger := [{ id := 1, phoneNumber := "p1", recipientName := "n1",
                       templateParams := [], status := "sent", errorMessage := "",
                       whatsAppMessageID := "w1", sentAt := some 5 },
                     { id := 2, phoneNumber := "p2", recipientName := "n2",
                       templateParams := [], status := "sent", errorMessage := "",
                       whatsAppMessageID := "w2", sentAt := some 5 },
                     { id := 3, phoneNumber := "p3", recipientName := "n3",
                       templateParams := [], status := "sent", errorMessage := "",
                       whatsAppMessageID := "w3", sentAt := some 5 },
                     { id := 4, phoneNumber := "p4", recipientName := "n4",
                       templateParams := [], status := "failed", errorMessage := "e4",
                       whatsAppMessageID := "", sentAt := none },
                     { id := 5, phoneNumber := "p5", recipientName := "n5",
                       templateParams := [], status := "failed", errorMessage := "e5",
                       whatsAppMessageID := "", sentAt := none }],
          messages := [] } true).world.campaign.sentCount = 0 ∧
    countStatus "sent"
      (retryFailedAction
        { campaign := { id := 1, orgID := 2, status := "completed", totalRecipients := 5,
                        sentCount := 3, deliveredCount := 0, readCount := 0,
                        failedCount := 2, startedAt := some 1, completedAt := some 9 },
          ledger := [{ id := 1, phoneNumber := "p1", recipientName := "n1",
                       templateParams := [], status := "sent", errorMessage := "",
                       whatsAppMessageID := "w1", sentAt := some 5 },
                     { id := 2, phoneNumber := "p2", recipientName := "n2",
                       templateParams := [], status := "sent", errorMessage := "",
                       whatsAppMessageID := "w2", sentAt := some 5 },
                     { id := 3, phoneNumber := "p3", recipientName := "n3",
                       templateParams := [], status := "sent", errorMessage := "",
                       whatsAppMessageID := "w3", sentAt := some 5 },
                     { id := 4, phoneNumber := "p4", recipientName := "n4",
                       templateParams := [], status := "failed", errorMessage := "e4",
                       whatsAppMessageID := "", sentAt := none },
                     { id := 5, phoneNumber := "p5", recipientName := "n5",
                       templateParams := [], status := "failed", errorMessage := "e5",
                       whatsAppMessageID := "", sentAt := none }],
          messages := [] } true).world.ledger = 3 ∧
    (0 : Nat) ≠ 3 := by
  decide

/-- C3 amended: a worker run preserves counter consistency with the
recipient ledger — whenever the stored sent_count/failed_count equal the
ledger's sent/failed row counts before processCampaign, they still do at its
quiescent end, however many sends failed or where the run stopped; the
retry-failed recompute, however, sets the counters from the campaign's rows
in the messages table grouped by status (after resetting its failed rows),
which need not equal the recipient-ledger counts. -/
theorem counter_consistency_amended :
    (∀ (send : Recipient → SendResult) (observe : Nat → String) (now : Nat)
       (accountOk : Bool) (c : Campaign) (ledger : List Recipient),
      c.sentCount = countStatus "sent" ledger →
      c.failedCount = countStatus "failed" ledger →
      (processCampaign send observe now accountOk c ledger).1.sentCount =
        countStatus "sent" (processCampaign send observe now accountOk c ledger).2 ∧
      (processCampaign send observe now accountOk c ledger).1.failedCount =
        countStatus "failed" (processCampaign send observe now accountOk c ledger).2) ∧
    (∀ (w : World) (enqueueOk : Bool),
      (w.campaign.status = "completed" ∨ w.campaign.status = "paused" ∨
        w.campaign.status = "failed") →
      (w.ledger.filter (fun r => r.status = "failed")).isEmpty = false →
      (retryFailedAction w enqueueOk).world.campaign.sentCount =
        ((w.messages.map (resetFailedMessage w.campaign.id)).filter
          (fun m => m.campaignMeta = some w.campaign.id)).countP
          (fun m => m.status = "sent" ∨ m.status = "delivered" ∨ m.status = "read") ∧
      (retryFailedAction w enqueueOk).world.campaign.failedCount =
        ((w.messages.map (resetFailedMessage w.campaign.id)).filter
          (fun m => m.campaignMeta = some w.campaign.id)).countP
          (fun m => m.status = "failed")) := by
  constructor
  · intro send observe now accountOk c ledger h1 h2
    by_cases hg : c.status ≠ "queued" ∧ c.status ≠ "processing"
    · rw [processCampaign, if_pos hg]
      exact ⟨h1, h2⟩
    · by_cases hacc : accountOk
      · have hall : ∀ r ∈ ledger.filter (fun r => r.status = "pending"),
            r.status = "pending" := by
          intro r hr
          have := (List.mem_filter.mp hr).2
          simpa using this
        obtain ⟨hs, hf, hlen⟩ := runLoop_counts send observe now
          (ledger.filter (fun r => r.status = "pending")) c.sentCount c.failedCount 0 hall
        have hmS := mergeProcessed_counts "sent" ledger
          (runLoop send observe now (ledger.filter (fun r => r.status = "pending"))
            c.sentCount c.failedCount 0).processed hlen
        have hmF := mergeProcessed_counts "failed" ledger
          (runLoop send observe now (ledger.filter (fun r => r.status = "pending"))
            c.sentCount c.failedCount 0).processed hlen
        have hnpS := countStatus_filter_not_pending "sent" (by decide) ledger
        have hnpF := countStatus_filter_not_pending "failed" (by decide) ledger
        rw [processCampaign, if_neg hg, if_neg (by simpa using hacc)]
        simp only []
        split
        · constructor
          · simp only []
            rw [hmS, hnpS, hs, h1]
          · simp only []
            rw [hmF, hnpF, hf, h2]
        · constructor
          · simp only []
            rw [hmS, hnpS, hs, h1]
          · simp only []
            rw [hmF, hnpF, hf, h2]
      · rw [processCampaign, if_neg hg, if_pos (by simpa using hacc)]
        exact ⟨h1, h2⟩
  · intro w enqueueOk hstatus hfailed
    have hguard : ¬(w.campaign.status ≠ "completed" ∧ w.campaign.status ≠ "paused" ∧
        w.campaign.status ≠ "failed") := by tauto
    cases enqueueOk <;>
      simp [retryFailedAction, recalcFromMessages, hguard, hfailed]

/-- C3 amended witness: a consistent single-recipient campaign stays
consistent through a worker run whose only send fails. -/
theorem counter_consistency_amended_witness :
    (processCampaign (fun _ => .err "boom") (fun _ => "processing") 10 true
        { id := 1, orgID := 2, status := "processing", totalRecipients := 1,
          sentCount := 0, deliveredCount := 0, readCount := 0, failedCount := 0,
          startedAt := some 1, completedAt := none }
        [{ id := 9, phoneNumber := "p", recipientName := "n", templateParams := [],
           status := "pending", errorMessage := "", whatsAppMessageID := "",
           sentAt := none }]).1.failedCount =
      countStatus "failed"
        (processCampaign (fun _ => .err "boom") (fun _ => "processing") 10 true
          { id := 1, orgID := 2, status := "processing", totalRecipients := 1,
            sentCount := 0, deliveredCount := 0, readCount := 0, failedCount := 0,
            startedAt := some 1, completedAt := none }
          [{ id := 9, phoneNumber := "p", recipientName := "n", templateParams := [],
             status := "pending", errorMessage := "", whatsAppMessageID := "",
             sentAt := none }]).2 := by
  have h := counter_consistency_amended.1 (fun _ => .err "boom") (fun _ => "processing")
    10 true
    { id := 1, orgID := 2, status := "processing", totalRecipients := 1,
      sentCount := 0, deliveredCount := 0, readCount := 0, failedCount := 0,
      startedAt := some 1, completedAt := none }
    [{ id := 9, phoneNumber := "p", recipientName := "n", templateParams := [],
       status := "pending", errorMessage := "", whatsAppMessageID := "",
       sentAt := none }] (by decide) (by decide)
  exact h.2

/-- When no status re-read during the loop observes paused or cancelled, the
send loop runs the whole snapshot and reports no stop. -/
theorem runLoop_no_stop (send : Recipient → SendResult) (observe : Nat → String)
    (now : Nat) :
    ∀ (l : List Recipient) (s f i : Nat),
      (∀ d, d < l.length → ¬(observe (i + d) = "paused" ∨ observe (i + d) = "cancelled")) →
      (runLoop send observe now l s f i).stopped = none := by
  intro l
  induction l with
  | nil => intro s f i h; simp [runLoop]
  | cons r rest ih =>
    intro s f i h
    have h0 : ¬(observe i = "paused" ∨ observe i = "cancelled") := by
      have := h 0 (by simp)
      simpa using this
    rw [runLoop, if_neg h0]
    have hrest : ∀ d, d < rest.length →
        ¬(observe (i + 1 + d) = "paused" ∨ observe (i + 1 + d) = "cancelled") := by
      intro d hd
      have h2 := h (d + 1) (by simp only [List.length_cons]; omega)
      have h3 : i + (d + 1) = i + 1 + d := by omega
      rwa [h3] at h2
    cases hsr : send r with
    | err m => exact ih s (f + 1) (i + 1) hrest
    | ok mid => exact ih (s + 1) f (i + 1) hrest

/-- C7: a worker run that exhausts the pending snapshot without observing
paused or cancelled marks the campaign completed with completed_at set,
whatever each send returned; and no API action ever writes the completed
status — the worker's recipient-exhaustion decision is its sole writer. -/
theorem completion_by_exhaustion :
    (∀ (send : Recipient → SendResult) (observe : Nat → String) (now : Nat)
       (c : Campaign) (ledger : List Recipient),
      (c.status = "queued" ∨ c.status = "processing") →
      (∀ d, d < (ledger.filter (fun r => r.status = "pending")).length →
        ¬(observe d = "paused" ∨ observe d = "cancelled")) →
      (processCampaign send observe now true c ledger).1.status = "completed" ∧
      (processCampaign send observe now true c ledger).1.completedAt = some now) ∧
    (∀ (w : World) (act : CampaignAction),
      w.campaign.status ≠ "completed" →
      (applyAction w act).world.campaign.status ≠ "completed") := by
  constructor
  · intro send observe now c ledger hg hobs
    have hg2 : ¬(c.status ≠ "queued" ∧ c.status ≠ "processing") := by tauto
    have hstop := runLoop_no_stop send observe now
      (ledger.filter (fun r => r.status = "pending")) c.sentCount c.failedCount 0
      (fun d hd => by simpa using hobs d hd)
    rw [processCampaign, if_neg hg2, if_neg (by simp)]
    simp only [hstop]
    exact ⟨trivial, trivial⟩
  · intro w act h
    cases act with
    | start now enqueueOk =>
      simp only [applyAction, startCampaign]
      split_ifs <;> simp <;> exact h
    | pause =>
      simp only [applyAction, pauseCampaign]
      split_ifs <;> simp <;> exact h
    | cancel =>
      simp only [applyAction, cancelCampaign]
      split_ifs <;> simp <;> exact h
    | retryFailed enqueueOk =>
      simp only [applyAction, retryFailedAction]
      split_ifs <;> simp [recalcFromMessages] <;> exact h
    | importRecipients newRecs =>
      simp only [applyAction, importRecipientsAction]
      split_ifs <;> simp <;> exact h
    | delete =>
      simp only [applyAction, deleteCampaignAction]
      split_ifs <;> simp <;> exact h

/-- C7 witness: a two-recipient campaign whose first send succeeds and whose
second fails still completes. -/
theorem completion_by_exhaustion_witness :
    (processCampaign (fun r => if r.id = 1 then .ok "w1" else .err "boom")
        (fun _ => "processing") 42 true
        { id := 1, orgID := 2, status := "processing", totalRecipients := 2,
          sentCount := 0, deliveredCount := 0, readCount := 0, failedCount := 0,
          startedAt := some 1, completedAt := none }
        [{ id := 1, phoneNumber := "p1", recipientName := "n1", templateParams := [],
           status := "pending", errorMessage := "", whatsAppMessageID := "", sentAt := none },
         { id := 2, phoneNumber := "p2", recipientName := "n2", templateParams := [],
           status := "pending", errorMessage := "", whatsAppMessageID := "", sentAt := none }]).1.status =
      "completed" := by
  have h := completion_by_exhaustion.1 (fun r => if r.id = 1 then .ok "w1" else .err "boom")
    (fun _ => "processing") 42
    { id := 1, orgID := 2, status := "processing", totalRecipients := 2,
      sentCount := 0, deliveredCount := 0, readCount := 0, failedCount := 0,
      startedAt := some 1, completedAt := none }
    [{ id := 1, phoneNumber := "p1", recipientName := "n1", templateParams := [],
       status := "pending", errorMessage := "", whatsAppMessageID := "", sentAt := none },
     { id := 2, phoneNumber := "p2", recipientName := "n2", templateParams := [],
       status := "pending", errorMessage := "", whatsAppMessageID := "", sentAt := none }]
    (by decide) (by decide)
  exact h.1

/-- When the k-th status re-read is the first to observe paused or cancelled,
the loop leaves rows k onward exactly as they were, has attempted exactly k
sends, and reports the observed status. -/
theorem runLoop_stops_at (send : Recipient → SendResult) (observe : Nat → String)
    (now : Nat) :
    ∀ (k : Nat) (l : List Recipient) (s f i : Nat),
      (∀ d, d < k → ¬(observe (i + d) = "paused" ∨ observe (i + d) = "cancelled")) →
      k < l.length →
      (observe (i + k) = "paused" ∨ observe (i + k) = "cancelled") →
      (runLoop send observe now l s f i).processed.drop k = l.drop k ∧
      (runLoop send observe now l s f i).sentCount +
        (runLoop send observe now l s f i).failedCount = s + f + k ∧
      (runLoop send observe now l s f i).stopped = some (observe (i + k)) := by
  intro k
  induction k with
  | zero =>
    intro l s f i hpre hlt hstop
    cases l with
    | nil => simp at hlt
    | cons r rest =>
      rw [runLoop, if_pos (by simpa using hstop)]
      simp
  | succ k ih =>
    intro l s f i hpre hlt hstop
    cases l with
    | nil => simp at hlt
    | cons r rest =>
      have h0 : ¬(observe i = "paused" ∨ observe i = "cancelled") := by
        simpa using hpre 0 (Nat.succ_pos k)
      have hpre2 : ∀ d, d < k →
          ¬(observe (i + 1 + d) = "paused" ∨ observe (i + 1 + d) = "cancelled") := by
        intro d hd
        have h2 := hpre (d + 1) (by omega)
        have h3 : i + (d + 1) = i + 1 + d := by omega
        rwa [h3] at h2
      have hlt2 : k < rest.length := by
        simp only [List.length_cons] at hlt
        omega
      have hstop2 : observe (i + 1 + k) = "paused" ∨ observe (i + 1 + k) = "cancelled" := by
        have h3 : i + (k + 1) = i + 1 + k := by omega
        rwa [h3] at hstop
      rw [runLoop, if_neg h0]
      cases hsr : send r with
      | err m =>
        obtain ⟨ha, hb, hc⟩ := ih rest s (f + 1) (i + 1) hpre2 hlt2 hstop2
        refine ⟨?_, ?_, ?_⟩
        · simpa [List.drop_succ_cons] using ha
        · simp only []
          omega
        · have h3 : i + (k + 1) = i + 1 + k := by omega
          rw [h3]
          simpa using hc
      | ok mid =>
        obtain ⟨ha, hb, hc⟩ := ih rest (s + 1) f (i + 1) hpre2 hlt2 hstop2
        refine ⟨?_, ?_, ?_⟩
        · simpa [List.drop_succ_cons] using ha
        · simp only []
          omega
        · have h3 : i + (k + 1) = i + 1 + k := by omega
          rw [h3]
          simpa using hc

/-- Writing the processed snapshot back can change a ledger row only at a
position whose original row was pending. -/
theorem mergeProcessed_nonpending_untouched :
    ∀ (ledger ps : List Recipient) (i : Nat) (r r2 : Recipient),
      ledger[i]? = some r → (mergeProcessed ledger ps)[i]? = some r2 → r2 ≠ r →
      r.status = "pending" := by
  intro ledger
  induction ledger with
  | nil => intro ps i r r2 h1 _ _; simp at h1
  | cons a rest ih =>
    intro ps i r r2 h1 h2 hne
    by_cases hp : a.status = "pending"
    · cases ps with
      | nil =>
        simp only [mergeProcessed, if_pos hp] at h2
        cases i with
        | zero =>
          simp only [List.getElem?_cons_zero, Option.some.injEq] at h1 h2
          exact absurd (h2.symm.trans h1 : r2 = r) hne
        | succ n =>
          simp only [List.getElem?_cons_succ] at h1 h2
          exact ih [] n r r2 h1 h2 hne
      | cons p ps2 =>
        simp only [mergeProcessed, if_pos hp] at h2
        cases i with
        | zero =>
          simp only [List.getElem?_cons_zero, Option.some.injEq] at h1
          rw [← h1]
          exact hp
        | succ n =>
          simp only [List.getElem?_cons_succ] at h1 h2
          exact ih ps2 n r r2 h1 h2 hne
    · simp only [mergeProcessed, if_neg hp] at h2
      cases i with
      | zero =>
        simp only [List.getElem?_cons_zero, Option.some.injEq] at h1 h2
        exact absurd (h2.symm.trans h1 : r2 = r) hne
      | succ n =>
        simp only [List.getElem?_cons_succ] at h1 h2
        exact ih ps n r r2 h1 h2 hne

/-- C8: pause is cooperative and non-destructive.  (i) The worker re-reads
the campaign status before each send: if the k-th re-read is the first to
observe paused or cancelled, rows k onward of the snapshot keep their exact
records and only k sends were counted.  (ii) PauseCampaign never touches any
recipient row, and from a running campaign it answers success with status
paused.  (iii) A subsequent start enqueues jobs for exactly the rows still
pending.  (iv) A worker run can change a ledger row only if that row was
pending. -/
theorem pause_cooperative :
    (∀ (send : Recipient → SendResult) (observe : Nat → String) (now : Nat)
       (l : List Recipient) (s f k : Nat),
      (∀ d, d < k → ¬(observe d = "paused" ∨ observe d = "cancelled")) →
      k < l.length →
      (observe k = "paused" ∨ observe k = "cancelled") →
      (runLoop send observe now l s f 0).processed.drop k = l.drop k ∧
      (runLoop send observe now l s f 0).sentCount +
        (runLoop send observe now l s f 0).failedCount = s + f + k) ∧
    (∀ w : World,
      (pauseCampaign w).world.ledger = w.ledger ∧
      ((w.campaign.status = "processing" ∨ w.campaign.status = "queued") →
        (pauseCampaign w).world.campaign.status = "paused" ∧
        (pauseCampaign w).result = .success)) ∧
    (∀ (w : World) (now : Nat),
      (w.campaign.status = "draft" ∨ w.campaign.status = "scheduled" ∨
        w.campaign.status = "paused") →
      (w.ledger.filter (fun r => r.status = "pending")).isEmpty = false →
      (startCampaign w now true).enqueuedJobs =
        (w.ledger.filter (fun r => r.status = "pending")).map (toRecipientJob w.campaign) ∧
      ∀ j ∈ (startCampaign w now true).enqueuedJobs,
        ∃ r ∈ w.ledger, r.status = "pending" ∧ j.recipientID = r.id) ∧
    (∀ (send : Recipient → SendResult) (observe : Nat → String) (now : Nat)
       (accountOk : Bool) (c : Campaign) (ledger : List Recipient) (i : Nat)
       (r r2 : Recipient),
      ledger[i]? = some r →
      (processCampaign send observe now accountOk c ledger).2[i]? = some r2 →
      r2 ≠ r → r.status = "pending") := by
  refine ⟨?_, ?_, ?_, ?_⟩
  · intro send observe now l s f k hpre hlt hstop
    have h := runLoop_stops_at send observe now k l s f 0
      (fun d hd => by simpa using hpre d hd) hlt (by simpa using hstop)
    exact ⟨h.1, h.2.1⟩
  · intro w
    constructor
    · simp only [pauseCampaign]
      split_ifs <;> rfl
    · intro hrun
      have hguard : ¬(w.campaign.status ≠ "processing" ∧ w.campaign.status ≠ "queued") := by
        tauto
      simp [pauseCampaign, hguard]
  · intro w now hs hp
    have hguard : ¬(w.campaign.status ≠ "draft" ∧ w.campaign.status ≠ "scheduled" ∧
        w.campaign.status ≠ "paused") := by tauto
    have hjobs : (startCampaign w now true).enqueuedJobs =
        (w.ledger.filter (fun r => r.status = "pending")).map (toRecipientJob w.campaign) := by
      simp [startCampaign, hguard, hp]
    refine ⟨hjobs, ?_⟩
    intro j hj
    rw [hjobs] at hj
    obtain ⟨r, hrmem, rfl⟩ := List.mem_map.mp hj
    obtain ⟨hrl, hrp⟩ := List.mem_filter.mp hrmem
    exact ⟨r, hrl, by simpa using hrp, rfl⟩
  · intro send observe now accountOk c ledger i r r2 h1 h2 hne
    by_cases hg : c.status ≠ "queued" ∧ c.status ≠ "processing"
    · rw [processCampaign, if_pos hg] at h2
      rw [h1] at h2
      exact absurd (Option.some.inj h2).symm hne
    · by_cases hacc : accountOk
      · rw [processCampaign, if_neg hg, if_neg (by simpa using hacc)] at h2
        simp only [] at h2
        split at h2 <;>
          exact mergeProcessed_nonpending_untouched ledger _ i r r2 h1 h2 hne
      · rw [processCampaign, if_neg hg, if_pos (by simpa using hacc)] at h2
        rw [h1] at h2
        exact absurd (Option.some.inj h2).symm hne

/-- C8 witness: with pause observed before the second send, the second
pending recipient's row is untouched. -/
theorem pause_cooperative_witness :
    (runLoop (fun _ => .ok "w") (fun i => if i = 0 then "processing" else "paused") 10
        [{ id := 1, phoneNumber := "p1", recipientName := "n1", templateParams := [],
           status := "pending", errorMessage := "", whatsAppMessageID := "", sentAt := none },
         { id := 2, phoneNumber := "p2", recipientName := "n2", templateParams := [],
           status := "pending", errorMessage := "", whatsAppMessageID := "", sentAt := none }]
        0 0 0).processed.drop 1 =
      [{ id := 2, phoneNumber := "p2", recipientName := "n2", templateParams := [],
         status := "pending", errorMessage := "", whatsAppMessageID := "", sentAt := none }] := by
  have h := pause_cooperative.1 (fun _ => .ok "w")
    (fun i => if i = 0 then "processing" else "paused") 10
    [{ id := 1, phoneNumber := "p1", recipientName := "n1", templateParams := [],
       status := "pending", errorMessage := "", whatsAppMessageID := "", sentAt := none },
     { id := 2, phoneNumber := "p2", recipientName := "n2", templateParams := [],
       status := "pending", errorMessage := "", whatsAppMessageID := "", sentAt := none }]
    0 0 1 (by decide) (by decide) (by decide)
  exact h.1

/-- The parameter-collection loop equals a filterMap over the ascending key
range it scans. -/
theorem bodyParamsFrom_eq (params : List (String × String)) :
    ∀ (n i : Nat),
      bodyParamsFrom params i n = (List.range' i n).filterMap
        (fun j => (lookupField params (toString j)).map
          (fun v => { ptype := "text", text := v })) := by
  intro n
  induction n with
  | zero => intro i; rfl
  | succ n ih =>
    intro i
    cases h : lookupField params (toString i) with
    | none => simp [List.range'_succ, List.filterMap_cons, bodyParamsFrom, h, ih]
    | some v => simp [List.range'_succ, List.filterMap_cons, bodyParamsFrom, h, ih]

/-- C10: the gateway call's body parameters are exactly the template
parameter entries at the decimal keys 1 through 10, scanned in ascending
numeric order; an entry at any other key has no effect on the built
components; and when no key in the range is present (in particular for an
empty parameter map) no component is attached at all. -/
theorem template_body_params_keys_one_to_ten (params : List (String × String)) :
    ((∀ j ∈ List.range' 1 10, lookupField params (toString j) = none) →
      buildComponents params = []) ∧
    (buildComponents params = [] →
      ∀ j ∈ List.range' 1 10, lookupField params (toString j) = none) ∧
    (∀ (k v : String), (∀ j ∈ List.range' 1 10, toString j ≠ k) →
      buildComponents ((k, v) :: params) = buildComponents params) ∧
    (∀ j v, j ∈ List.range' 1 10 → lookupField params (toString j) = some v →
      buildComponents params =
        [{ ctype := "body", parameters := bodyParamsFrom params 1 10 }] ∧
      ({ ptype := "text", text := v } : BodyParam) ∈ bodyParamsFrom params 1 10) ∧
    bodyParamsFrom params 1 10 = (List.range' 1 10).filterMap
      (fun j => (lookupField params (toString j)).map
        (fun v => { ptype := "text", text := v })) := by
  refine ⟨?_, ?_, ?_, ?_, bodyParamsFrom_eq params 10 1⟩
  · intro hall
    have hB : bodyParamsFrom params 1 10 = [] := by
      rw [bodyParamsFrom_eq params 10 1]
      rw [List.filterMap_eq_nil_iff]
      intro j hj
      rw [hall j hj]
      rfl
    by_cases hpe : params.isEmpty <;> simp [buildComponents, hpe, hB]
  · intro hempty j hj
    by_cases hpe : params.isEmpty
    · have : params = [] := by simpa [List.isEmpty_iff] using hpe
      subst this
      rfl
    · rw [buildComponents, if_neg (by simpa using hpe)] at hempty
      by_cases hB : (bodyParamsFrom params 1 10).isEmpty
      · have hB2 : bodyParamsFrom params 1 10 = [] := by
          simpa [List.isEmpty_iff] using hB
        rw [bodyParamsFrom_eq params 10 1, List.filterMap_eq_nil_iff] at hB2
        have := hB2 j hj
        exact Option.map_eq_none'.mp this
      · rw [if_neg (by simpa using hB)] at hempty
        exact absurd hempty (by simp)
  · intro k v hk
    have hlook : ∀ j ∈ List.range' 1 10,
        lookupField ((k, v) :: params) (toString j) = lookupField params (toString j) := by
      intro j hj
      rw [lookupField, if_neg (fun h => (hk j hj) h.symm)]
    have hB : bodyParamsFrom ((k, v) :: params) 1 10 = bodyParamsFrom params 1 10 := by
      rw [bodyParamsFrom_eq _ 10 1, bodyParamsFrom_eq params 10 1]
      exact List.filterMap_congr (fun j hj => by rw [hlook j hj])
    by_cases hpe : params.isEmpty
    · have : params = [] := by simpa [List.isEmpty_iff] using hpe
      subst this
      have hBnil : bodyParamsFrom ([] : List (String × String)) 1 10 = [] := rfl
      simp [buildComponents, hB, hBnil]
    · simp [buildComponents, hB, hpe]
  · intro j v hj hlook
    have hmem : ({ ptype := "text", text := v } : BodyParam) ∈ bodyParamsFrom params 1 10 := by
      rw [bodyParamsFrom_eq params 10 1]
      rw [List.mem_filterMap]
      exact ⟨j, hj, by rw [hlook]; rfl⟩
    have hpe : ¬ params.isEmpty := by
      intro hpe
      have : params = [] := by simpa [List.isEmpty_iff] using hpe
      subst this
      exact Option.noConfusion hlook
    have hBne : ¬ (bodyParamsFrom params 1 10).isEmpty := by
      intro hB
      have : bodyParamsFrom params 1 10 = [] := by simpa [List.isEmpty_iff] using hB
      rw [this] at hmem
      exact absurd hmem (List.not_mem_nil _)
    refine ⟨?_, hmem⟩
    rw [buildComponents, if_neg (by simpa using hpe), if_neg (by simpa using hBne)]

/-- C10 witness: a parameter map holding only an out-of-range key yields no
component. -/
theorem template_body_params_keys_one_to_ten_witness :
    buildComponents [("customer", "Ada")] = [] :=
  (template_body_params_keys_one_to_ten [("customer", "Ada")]).1 (by decide)
